import Mathlib

/-!  Shallow embedding of the dual-backend deferred renderer: the WebGL2
backend (WebGL2Renderer.ts) and the WebGPU backend (WebGPURenderer.ts).
Shader arithmetic is modelled over the real numbers, one fragment
evaluation at a time; pass sequencing and resource bookkeeping are
modelled as pure state transformers over natural numbers and lists. -/

namespace Graphics

/-- A 3-component vector (GLSL vec3 / WGSL vec3f). -/
structure Vec3 where
  x : ℝ
  y : ℝ
  z : ℝ

/-- A 4-component vector (GLSL vec4 / WGSL vec4f). -/
structure Vec4 where
  x : ℝ
  y : ℝ
  z : ℝ
  w : ℝ

def vadd (a b : Vec3) : Vec3 := ⟨a.x + b.x, a.y + b.y, a.z + b.z⟩

def vsub (a b : Vec3) : Vec3 := ⟨a.x - b.x, a.y - b.y, a.z - b.z⟩

def vscale (s : ℝ) (v : Vec3) : Vec3 := ⟨s * v.x, s * v.y, s * v.z⟩

def vneg (v : Vec3) : Vec3 := ⟨-v.x, -v.y, -v.z⟩

def vdot (a b : Vec3) : ℝ := a.x * b.x + a.y * b.y + a.z * b.z

def vmap (f : ℝ → ℝ) (v : Vec3) : Vec3 := ⟨f v.x, f v.y, f v.z⟩

/-- GLSL/WGSL normalize: divide a vector by its Euclidean length. -/
noncomputable def vnormalize (v : Vec3) : Vec3 :=
  vscale (1 / Real.sqrt (vdot v v)) v

/-- GLSL/WGSL reflect(I, N) = I - 2 * dot(N, I) * N. -/
def vreflect (i n : Vec3) : Vec3 := vsub i (vscale (2 * vdot n i) n)

/-- A 4x4 matrix, stored as rows; mulVec applies it to a column vector. -/
structure Mat4 where
  r0 : Vec4
  r1 : Vec4
  r2 : Vec4
  r3 : Vec4

def dot4 (a b : Vec4) : ℝ := a.x * b.x + a.y * b.y + a.z * b.z + a.w * b.w

def mulVec (m : Mat4) (v : Vec4) : Vec4 :=
  ⟨dot4 m.r0 v, dot4 m.r1 v, dot4 m.r2 v, dot4 m.r3 v⟩

def mat4Id : Mat4 := ⟨⟨1, 0, 0, 0⟩, ⟨0, 1, 0, 0⟩, ⟨0, 0, 1, 0⟩, ⟨0, 0, 0, 1⟩⟩

/-- DrawCall: the transient per-frame value both backends consume.  Only the
fields the verified claims inspect are carried (the mesh handle as an id and
the emissive flag). -/
structure DrawCall where
  mesh : ℕ
  emissive : Bool
deriving DecidableEq

/-- RenderOptions: the three per-frame boolean toggles. -/
structure RenderOptions where
  shadows : Bool
  normalMaps : Bool
  postProcessing : Bool
deriving DecidableEq

/-- FrameUniforms: per-frame uniforms; the light view-projection is optional
(absence means "no shadow casting this frame"). -/
structure FrameUniforms where
  viewProj : Mat4
  lightPos : Vec3
  cameraPos : Vec3
  lightViewProj : Option Mat4

/-- SHADOW_SIZE = 1024 in both backends. -/
def SHADOW_SIZE : ℕ := 1024

/-- BLOOM_PASSES = 5 in both backends. -/
def BLOOM_PASSES : ℕ := 5

/-- texelSize of the shadow map: 1.0 / textureSize(shadowMap) per axis. -/
noncomputable def texel : ℝ := 1 / (SHADOW_SIZE : ℝ)

/-- The 3x3 PCF offsets, x outer loop then y, each from -1 to 1 — the
iteration order of the nested for loops in both shadowCalc shaders. -/
def pcfOffsets : List (ℤ × ℤ) :=
  [(-1, -1), (-1, 0), (-1, 1), (0, -1), (0, 0), (0, 1), (1, -1), (1, 0), (1, 1)]

/-- lightSpacePos.xyz / lightSpacePos.w after lightViewProj * vec4(worldPos, 1). -/
noncomputable def ndcCoords (lvp : Mat4) (wp : Vec3) : Vec3 :=
  let l := mulVec lvp ⟨wp.x, wp.y, wp.z, 1⟩
  ⟨l.x / l.w, l.y / l.w, l.z / l.w⟩

/-- projCoords * 0.5 + 0.5, the NDC-to-[0,1] remap both shaders apply. -/
noncomputable def remap01 (v : Vec3) : Vec3 :=
  ⟨v.x * 0.5 + 0.5, v.y * 0.5 + 0.5, v.z * 0.5 + 0.5⟩

namespace WebGL2

/-- shadowCalc of LIGHT_FRAG (WebGL2Renderer.ts): project worldPos through
the light view-projection, remap to [0,1], early-return 1.0 outside the
frustum or beyond the far plane, otherwise average a 3x3 PCF neighborhood
of the binary depth comparison with bias 0.005.  The shadow map is the
sampled texture, abstracted as a function of the two texture coordinates. -/
noncomputable def shadowCalc (smap : ℝ → ℝ → ℝ) (lvp : Mat4) (wp : Vec3) : ℝ :=
  let p := remap01 (ndcCoords lvp wp)
  if p.x < 0 ∨ 1 < p.x ∨ p.y < 0 ∨ 1 < p.y ∨ 1 < p.z then 1
  else
    (pcfOffsets.map (fun o =>
      if p.z - 0.005 > smap (p.x + (o.1 : ℝ) * texel) (p.y + (o.2 : ℝ) * texel)
      then (0 : ℝ) else 1)).sum / 9

/-- main() of LIGHT_FRAG (WebGL2Renderer.ts): Blinn-Phong with boosted
specular; pixels whose G-Buffer position alpha is 0 get the flat
background colour (0.08, 0.08, 0.12).  There is no emissive branch. -/
noncomputable def lightFrag (uLightPos uCameraPos : Vec3) (uLightViewProj : Mat4)
    (smap : ℝ → ℝ → ℝ) (gPos gNorm : Vec4) (gAlbedo : Vec3) : Vec3 :=
  let worldPos : Vec3 := ⟨gPos.x, gPos.y, gPos.z⟩
  let N := vnormalize ⟨gNorm.x, gNorm.y, gNorm.z⟩
  let albedo := gAlbedo
  if gPos.w = 0 then ⟨0.08, 0.08, 0.12⟩
  else
    let L := vnormalize (vsub uLightPos worldPos)
    let V := vnormalize (vsub uCameraPos worldPos)
    let R := vreflect (vneg L) N
    let ambient : ℝ := 0.15
    let diffuse : ℝ := max (vdot N L) 0
    let specular : ℝ := (max (vdot R V) 0) ^ (32 : ℕ) * 2
    let shadow := shadowCalc smap uLightViewProj worldPos
    vadd (vadd (vscale ambient albedo) (vscale (diffuse * shadow) albedo))
      (vscale (specular * shadow) ⟨1, 1, 1⟩)

/-- aces of COMPOSITE_FRAG: Narkowicz's ACES approximation, componentwise
clamp((x*(a*x+b))/(x*(c*x+d)+e), 0, 1) with a=2.51 b=0.03 c=2.43 d=0.59 e=0.14. -/
noncomputable def aces (v : ℝ) : ℝ :=
  min (max ((v * (2.51 * v + 0.03)) / (v * (2.43 * v + 0.59) + 0.14)) 0) 1

/-- The tone curve the composite applies per component when uToneMap is on:
aces followed by the 1/2.2 gamma encode. -/
noncomputable def toneCurve (c : ℝ) : ℝ := aces c ^ ((1 : ℝ) / 2.2)

/-- main() of COMPOSITE_FRAG (WebGL2Renderer.ts): hdr = scene + bloom *
uBloomStrength; when uToneMap, apply aces to hdr * uExposure and gamma
encode, otherwise write hdr unmapped. -/
noncomputable def compositeFrag (uToneMap : Bool) (uBloomStrength uExposure : ℝ)
    (scene bloom : Vec3) : Vec3 :=
  let hdr := vadd scene (vscale uBloomStrength bloom)
  if uToneMap then vmap toneCurve (vscale uExposure hdr)
  else hdr

/-- The composite invocation as renderFrame wires it: bloomStrength is 0.3
when postProcessing else 0.0, exposure 1.0, tone mapping iff postProcessing. -/
noncomputable def compositeWire (pp : Bool) (scene bloom : Vec3) : Vec3 :=
  compositeFrag pp (if pp then 0.3 else 0) 1 scene bloom

/-- A pixel's final value through lighting then composite, given the sampled
G-Buffer values, shadow map and bloom sample for that pixel. -/
noncomputable def renderPixel (pp : Bool) (uLightPos uCameraPos : Vec3)
    (uLightViewProj : Mat4) (smap : ℝ → ℝ → ℝ) (gPos gNorm : Vec4)
    (gAlbedo bloom : Vec3) : Vec3 :=
  compositeWire pp (lightFrag uLightPos uCameraPos uLightViewProj smap gPos gNorm gAlbedo) bloom

/-- The shadow-pass draw list of renderFrame (WebGL2Renderer.ts): geometry is
rendered only when opts.shadows and a light view-projection is supplied, and
then EVERY draw call is rendered — there is no emissive filter. -/
def shadowDrawList (drawCalls : List DrawCall) (u : FrameUniforms)
    (opts : RenderOptions) : List DrawCall :=
  if opts.shadows ∧ u.lightViewProj.isSome then drawCalls else []

/-- The shadow target's content after pass 1: the clear writes depth 1.0
everywhere, then each listed draw call is rasterized on top (drawDepth
abstracts rasterizing one draw call into the depth map). -/
noncomputable def shadowPassMap
    (drawDepth : (ℝ → ℝ → ℝ) → DrawCall → (ℝ → ℝ → ℝ))
    (drawCalls : List DrawCall) (u : FrameUniforms) (opts : RenderOptions) :
    ℝ → ℝ → ℝ :=
  (shadowDrawList drawCalls u opts).foldl drawDepth (fun _ _ => 1)

end WebGL2

namespace WebGPU

/-- shadowCalc of LIGHT_SHADER (WebGPU backend): same projection, but the
depth is remapped from OpenGL NDC to [0,1], the sample Y is flipped for
WebGPU's texture-coordinate convention, and the comparison sampler
(compare: "less") returns 1.0 when ref < stored.  Uniform control flow:
the 3x3 sum is always computed, the out-of-bounds 1.0 selected after. -/
noncomputable def shadowCalc (smap : ℝ → ℝ → ℝ) (lvp : Mat4) (wp : Vec3) : ℝ :=
  let pj := ndcCoords lvp wp
  let uvx := pj.x * 0.5 + 0.5
  let uvy := pj.y * 0.5 + 0.5
  let depth := pj.z * 0.5 + 0.5
  let sUVx := uvx
  let sUVy := 1 - uvy
  let shadow := (pcfOffsets.map (fun o =>
    if depth - 0.005 < smap (sUVx + (o.1 : ℝ) * texel) (sUVy + (o.2 : ℝ) * texel)
    then (1 : ℝ) else 0)).sum / 9
  if uvx < 0 ∨ 1 < uvx ∨ uvy < 0 ∨ 1 < uvy ∨ 1 < depth then 1 else shadow

/-- fs() of LIGHT_SHADER (WebGPU backend): the same Blinn-Phong formula,
then select albedo * 5.0 when the G-Buffer normal's w flags emissive, then
select the flat background (0, 0, 0) when the position alpha is 0. -/
noncomputable def lightFrag (uLightPos uCameraPos : Vec3) (uLightViewProj : Mat4)
    (smap : ℝ → ℝ → ℝ) (gPos gNorm : Vec4) (gAlbedo : Vec3) : Vec3 :=
  let worldPos : Vec3 := ⟨gPos.x, gPos.y, gPos.z⟩
  let N := vnormalize ⟨gNorm.x, gNorm.y, gNorm.z⟩
  let albedo := gAlbedo
  let L := vnormalize (vsub uLightPos worldPos)
  let V := vnormalize (vsub uCameraPos worldPos)
  let R := vreflect (vneg L) N
  let ambient : ℝ := 0.15
  let diffuse : ℝ := max (vdot N L) 0
  let specular : ℝ := (max (vdot R V) 0) ^ (32 : ℕ) * 2
  let shadow := shadowCalc smap uLightViewProj worldPos
  let lit := vadd (vadd (vscale ambient albedo) (vscale (diffuse * shadow) albedo))
    (vscale (specular * shadow) ⟨1, 1, 1⟩)
  let afterEmissive := if 0.5 < gNorm.w then vscale 5 albedo else lit
  if gPos.w = 0 then ⟨0, 0, 0⟩ else afterEmissive

/-- aces of COMPOSITE_SHADER (WebGPU backend): identical constants. -/
noncomputable def aces (v : ℝ) : ℝ :=
  min (max ((v * (2.51 * v + 0.03)) / (v * (2.43 * v + 0.59) + 0.14)) 0) 1

/-- The per-component tone curve of the WebGPU composite. -/
noncomputable def toneCurve (c : ℝ) : ℝ := aces c ^ ((1 : ℝ) / 2.2)

/-- fs() of COMPOSITE_SHADER (WebGPU backend): toneMap is an f32 flag tested
against 0.5. -/
noncomputable def compositeFrag (toneMapFlag bloomStrength exposure : ℝ)
    (scene bloom : Vec3) : Vec3 :=
  let hdr := vadd scene (vscale bloomStrength bloom)
  if 0.5 < toneMapFlag then vmap toneCurve (vscale exposure hdr)
  else hdr

/-- The composite invocation as the WebGPU renderFrame wires it:
(postProcessing ? 0.3 : 0.0, 1.0, postProcessing ? 1.0 : 0.0). -/
noncomputable def compositeWire (pp : Bool) (scene bloom : Vec3) : Vec3 :=
  compositeFrag (if pp then 1 else 0) (if pp then 0.3 else 0) 1 scene bloom

/-- A pixel's final value through lighting then composite in the WebGPU
backend. -/
noncomputable def renderPixel (pp : Bool) (uLightPos uCameraPos : Vec3)
    (uLightViewProj : Mat4) (smap : ℝ → ℝ → ℝ) (gPos gNorm : Vec4)
    (gAlbedo bloom : Vec3) : Vec3 :=
  compositeWire pp (lightFrag uLightPos uCameraPos uLightViewProj smap gPos gNorm gAlbedo) bloom

/-- The shadow-pass draw list of the WebGPU renderFrame: geometry only when
opts.shadows and a light view-projection is supplied, and emissive draw
calls are skipped (if (dc.emissive) continue). -/
def shadowDrawList (drawCalls : List DrawCall) (u : FrameUniforms)
    (opts : RenderOptions) : List DrawCall :=
  if opts.shadows ∧ u.lightViewProj.isSome
  then drawCalls.filter (fun dc => !dc.emissive) else []

/-- The shadow target's content after the WebGPU pass 1 (clear to 1.0, then
rasterize the listed draw calls). -/
noncomputable def shadowPassMap
    (drawDepth : (ℝ → ℝ → ℝ) → DrawCall → (ℝ → ℝ → ℝ))
    (drawCalls : List DrawCall) (u : FrameUniforms) (opts : RenderOptions) :
    ℝ → ℝ → ℝ :=
  (shadowDrawList drawCalls u opts).foldl drawDepth (fun _ _ => 1)

end WebGPU

/-- The pixel dimensions of every screen-sized resource one rebuild
allocates: the three G-Buffer colour targets, the G-Buffer depth target,
the HDR scene target and the bloom ping-pong pair. -/
structure ScreenDims where
  gPosition : ℕ × ℕ
  gNormal : ℕ × ℕ
  gAlbedo : ℕ × ℕ
  gDepth : ℕ × ℕ
  hdr : ℕ × ℕ
  bloom0 : ℕ × ℕ
  bloom1 : ℕ × ℕ
deriving DecidableEq

namespace WebGL2

/-- rebuildScreenFBOs(w, h) of WebGL2Renderer.ts: the G-Buffer, depth and
HDR allocations use (w, h) as given; only the half-resolution bloom pair is
clamped, at Math.max(1, w >> 1) per axis. -/
def rebuildScreenFBOs (w h : ℕ) : ScreenDims :=
  { gPosition := (w, h), gNormal := (w, h), gAlbedo := (w, h), gDepth := (w, h)
    hdr := (w, h)
    bloom0 := (max 1 (w / 2), max 1 (h / 2))
    bloom1 := (max 1 (w / 2), max 1 (h / 2)) }

/-- The WebGL2 renderer's sizing state: canvas dimensions, the recorded
G-Buffer dimensions, the screen-sized resource set, and the shadow target's
dimensions. -/
structure State where
  canvasW : ℕ
  canvasH : ℕ
  gBufWidth : ℕ
  gBufHeight : ℕ
  screen : ScreenDims
  shadowSize : ℕ × ℕ
deriving DecidableEq

/-- The state after the constructor: the shadow depth texture is allocated
at SHADOW_SIZE x SHADOW_SIZE; no screen-sized storage has been defined yet. -/
def mkState (canvasW canvasH : ℕ) : State :=
  { canvasW := canvasW, canvasH := canvasH, gBufWidth := 0, gBufHeight := 0
    screen := ⟨(0, 0), (0, 0), (0, 0), (0, 0), (0, 0), (0, 0), (0, 0)⟩
    shadowSize := (SHADOW_SIZE, SHADOW_SIZE) }

/-- resize() of WebGL2Renderer.ts, with w, h the detected device-pixel
surface size: update the canvas when it differs, and rebuild the
screen-sized FBOs when the recorded G-Buffer size differs.  The shadow
target is not touched. -/
def resize (s : State) (w h : ℕ) : State :=
  let s1 := if s.canvasW ≠ w ∨ s.canvasH ≠ h
    then { s with canvasW := w, canvasH := h } else s
  if s1.gBufWidth ≠ w ∨ s1.gBufHeight ≠ h
  then { s1 with gBufWidth := w, gBufHeight := h, screen := rebuildScreenFBOs w h }
  else s1

end WebGL2

namespace WebGPU

/-- rebuildScreenTextures(w, h) of the WebGPU backend: same sizing, only the
bloom pair clamped at Math.max(1, w >> 1) per axis. -/
def rebuildScreenTextures (w h : ℕ) : ScreenDims :=
  { gPosition := (w, h), gNormal := (w, h), gAlbedo := (w, h), gDepth := (w, h)
    hdr := (w, h)
    bloom0 := (max 1 (w / 2), max 1 (h / 2))
    bloom1 := (max 1 (w / 2), max 1 (h / 2)) }

/-- The WebGPU renderer's sizing state. -/
structure State where
  canvasW : ℕ
  canvasH : ℕ
  screenWidth : ℕ
  screenHeight : ℕ
  screen : ScreenDims
  shadowSize : ℕ × ℕ
deriving DecidableEq

/-- The state after the private constructor: the fixed-size shadow depth
texture exists, screen-sized textures do not yet. -/
def mkState (canvasW canvasH : ℕ) : State :=
  { canvasW := canvasW, canvasH := canvasH, screenWidth := 0, screenHeight := 0
    screen := ⟨(0, 0), (0, 0), (0, 0), (0, 0), (0, 0), (0, 0), (0, 0)⟩
    shadowSize := (SHADOW_SIZE, SHADOW_SIZE) }

/-- resize() of the WebGPU backend. -/
def resize (s : State) (w h : ℕ) : State :=
  let s1 := if s.canvasW ≠ w ∨ s.canvasH ≠ h
    then { s with canvasW := w, canvasH := h } else s
  if s1.screenWidth ≠ w ∨ s1.screenHeight ≠ h
  then { s1 with screenWidth := w, screenHeight := h,
                 screen := rebuildScreenTextures w h }
  else s1

/-- The while loop at the top of the WebGPU renderFrame: push a fresh
uniform buffer (modelled by its index) until the pool covers the frame's
draw-call count.  Nothing is ever removed. -/
def growPool (pool : List ℕ) (n : ℕ) : List ℕ :=
  if _h : pool.length < n then growPool (pool ++ [pool.length]) n else pool
termination_by n - pool.length
decreasing_by simp only [List.length_append, List.length_cons, List.length_nil]; omega

/-- The two per-draw-call uniform buffer pools of the WebGPU backend. -/
structure Pools where
  shadowUniformBuffers : List ℕ
  gBufUniformBuffers : List ℕ
deriving DecidableEq

/-- Both pools start empty. -/
def emptyPools : Pools := ⟨[], []⟩

/-- The pool effect of one WebGPU renderFrame call with n draw calls: both
while loops top their pool up to n. -/
def renderFramePools (p : Pools) (n : ℕ) : Pools :=
  { shadowUniformBuffers := growPool p.shadowUniformBuffers n
    gBufUniformBuffers := growPool p.gBufUniformBuffers n }

end WebGPU

/-- VertexLayout: attribute location and component count, as in Renderer.ts. -/
structure VertexLayout where
  location : ℕ
  size : ℕ
deriving DecidableEq

/-- layout.reduce((s, a) => s + a.size, 0) — floats per vertex. -/
def floatsPerVertex (layout : List VertexLayout) : ℕ :=
  layout.foldl (fun s a => s + a.size) 0

/-- vertexCount returned by createMesh in WebGL2Renderer.ts:
data.length / floatsPerVertex, an exact (unrounded, unvalidated) division. -/
def WebGL2.createMeshVertexCount (dataLength : ℕ) (layout : List VertexLayout) : ℚ :=
  (dataLength : ℚ) / (floatsPerVertex layout : ℚ)

/-- vertexCount returned by createMesh in the WebGPU backend: the same
data.length / floatsPerVertex. -/
def WebGPU.createMeshVertexCount (dataLength : ℕ) (layout : List VertexLayout) : ℚ :=
  (dataLength : ℚ) / (floatsPerVertex layout : ℚ)

/-! ### Helper lemmas -/

theorem growPool_grow (n : ℕ) : ∀ k p, n - p.length ≤ k →
    (WebGPU.growPool p n).length = max p.length n ∧
      ∃ q, WebGPU.growPool p n = p ++ q := by
  intro k
  induction k with
  | zero =>
    intro p hp
    have hnot : ¬ p.length < n := by omega
    rw [WebGPU.growPool, dif_neg hnot]
    exact ⟨by omega, ⟨[], by simp⟩⟩
  | succ k ih =>
    intro p hp
    by_cases hlt : p.length < n
    · rw [WebGPU.growPool, dif_pos hlt]
      obtain ⟨hlen, q, hq⟩ := ih (p ++ [p.length])
        (by simp only [List.length_append, List.length_cons, List.length_nil]; omega)
      refine ⟨?_, ⟨[p.length] ++ q, by rw [hq, List.append_assoc]⟩⟩
      rw [hlen]
      simp only [List.length_append, List.length_cons, List.length_nil]
      omega
    · rw [WebGPU.growPool, dif_neg hlt]
      exact ⟨by omega, ⟨[], by simp⟩⟩

theorem growPool_length (p : List ℕ) (n : ℕ) :
    (WebGPU.growPool p n).length = max p.length n :=
  (growPool_grow n _ p le_rfl).1

theorem growPool_extends (p : List ℕ) (n : ℕ) :
    ∃ q, WebGPU.growPool p n = p ++ q :=
  (growPool_grow n _ p le_rfl).2

theorem foldl_growPool_length (counts : List ℕ) : ∀ p : List ℕ,
    (counts.foldl WebGPU.growPool p).length = counts.foldl max p.length := by
  induction counts with
  | nil => intro p; rfl
  | cons c t ih =>
    intro p
    simp only [List.foldl_cons]
    rw [ih, growPool_length]

theorem foldl_renderFramePools (counts : List ℕ) : ∀ p : WebGPU.Pools,
    counts.foldl WebGPU.renderFramePools p =
      ⟨counts.foldl WebGPU.growPool p.shadowUniformBuffers,
       counts.foldl WebGPU.growPool p.gBufUniformBuffers⟩ := by
  induction counts with
  | nil => intro p; cases p; rfl
  | cons c t ih =>
    intro p
    simp only [List.foldl_cons]
    rw [ih]
    rfl

theorem sum_binary {α : Type} (l : List α) (f : α → ℝ)
    (hf : ∀ a ∈ l, f a = 0 ∨ f a = 1) :
    ∃ k : ℕ, k ≤ l.length ∧ (l.map f).sum = k := by
  induction l with
  | nil => exact ⟨0, le_rfl, by simp⟩
  | cons a t ih =>
    obtain ⟨k, hk, hsum⟩ := ih fun b hb => hf b (List.mem_cons_of_mem a hb)
    rcases hf a (List.mem_cons_self a t) with h0 | h1
    · refine ⟨k, ?_, by simp [h0, hsum]⟩
      simp only [List.length_cons]
      omega
    · refine ⟨k + 1, ?_, ?_⟩
      · simp only [List.length_cons]
        omega
      · simp only [List.map_cons, List.sum_cons, h1, hsum]
        push_cast
        ring

theorem shadowCalc_const_one_gl2 (lvp : Mat4) (wp : Vec3) :
    WebGL2.shadowCalc (fun _ _ => 1) lvp wp = 1 := by
  rw [WebGL2.shadowCalc]
  split_ifs with hoob hin
  · rfl
  · push_neg at hoob
    have hz : (remap01 (ndcCoords lvp wp)).z ≤ 1 := hoob.2.2.2.2
    exact absurd hin (by simp only [gt_iff_lt, not_lt]; linarith)
  · simp only [pcfOffsets, List.map_cons, List.map_nil, List.sum_cons, List.sum_nil]
    norm_num

theorem shadowCalc_const_one_gpu (lvp : Mat4) (wp : Vec3) :
    WebGPU.shadowCalc (fun _ _ => 1) lvp wp = 1 := by
  rw [WebGPU.shadowCalc]
  split_ifs with hoob hin
  · rfl
  · simp only [pcfOffsets, List.map_cons, List.map_nil, List.sum_cons, List.sum_nil]
    norm_num
  · push_neg at hoob hin
    have hz : (ndcCoords lvp wp).z * 0.5 + 0.5 ≤ 1 := hoob.2.2.2.2
    linarith

theorem aces_nonneg (v : ℝ) : 0 ≤ WebGL2.aces v := by
  rw [WebGL2.aces]
  rcases le_total ((v * (2.51 * v + 0.03)) / (v * (2.43 * v + 0.59) + 0.14)) 0 with h | h
  · rw [max_eq_right h]
    norm_num
  · exact le_min (le_max_right _ 0) (by norm_num)

theorem aces_le_one (v : ℝ) : WebGL2.aces v ≤ 1 :=
  min_le_right _ 1

theorem aces_zero : WebGL2.aces 0 = 0 := by
  rw [WebGL2.aces]
  norm_num

theorem aces_eq_one_of_ge (v : ℝ) (hv : 8 ≤ v) : WebGL2.aces v = 1 := by
  have hd : 0 < v * (2.43 * v + 0.59) + 0.14 := by nlinarith
  have hq : 1 ≤ (v * (2.51 * v + 0.03)) / (v * (2.43 * v + 0.59) + 0.14) := by
    rw [le_div_iff₀ hd]
    nlinarith
  rw [WebGL2.aces]
  exact min_eq_right (le_trans hq (le_max_left _ 0))

theorem toneCurve_zero : WebGL2.toneCurve 0 = 0 := by
  rw [WebGL2.toneCurve, aces_zero]
  exact Real.zero_rpow (by norm_num)

theorem toneCurve_le_one (c : ℝ) : WebGL2.toneCurve c ≤ 1 :=
  Real.rpow_le_one (aces_nonneg c) (aces_le_one c) (by norm_num)

theorem toneCurve_tendsto_one :
    Filter.Tendsto WebGL2.toneCurve Filter.atTop (nhds 1) := by
  have hev : ∀ v : ℝ, 8 ≤ v → WebGL2.toneCurve v = 1 := by
    intro v hv
    rw [WebGL2.toneCurve, aces_eq_one_of_ge v hv, Real.one_rpow]
  refine Filter.Tendsto.congr' ?_ tendsto_const_nhds
  filter_upwards [Filter.eventually_ge_atTop (8 : ℝ)] with v hv
  exact (hev v hv).symm

theorem toneCurve_gpu_eq : WebGPU.toneCurve = WebGL2.toneCurve := rfl

theorem indicator_flip (a s : ℝ) (h : a ≠ s) :
    (if a < s then (1 : ℝ) else 0) = if a > s then (0 : ℝ) else 1 := by
  rcases lt_or_gt_of_ne h with hlt | hgt
  · rw [if_pos hlt, if_neg (not_lt.mpr hlt.le)]
  · rw [if_neg (not_lt.mpr hgt.le), if_pos hgt]

theorem pcf_sum_flip (f : ℤ × ℤ → ℝ) :
    (pcfOffsets.map f).sum = (pcfOffsets.map (fun o => f (o.1, -o.2))).sum := by
  simp only [pcfOffsets, List.map_cons, List.map_nil, List.sum_cons, List.sum_nil]
  norm_num
  ring

theorem shadowCalc_backend_eq (smapGL2 smapGPU : ℝ → ℝ → ℝ) (lvp : Mat4) (wp : Vec3)
    (hMap : ∀ a b, smapGPU a b = smapGL2 a (1 - b))
    (hNe : ∀ o ∈ pcfOffsets,
        (remap01 (ndcCoords lvp wp)).z - 0.005 ≠
          smapGL2 ((remap01 (ndcCoords lvp wp)).x + (o.1 : ℝ) * texel)
            ((remap01 (ndcCoords lvp wp)).y + (o.2 : ℝ) * texel)) :
    WebGPU.shadowCalc smapGPU lvp wp = WebGL2.shadowCalc smapGL2 lvp wp := by
  have hNe' : ∀ o : ℤ × ℤ, o ∈ pcfOffsets →
      (ndcCoords lvp wp).z * 0.5 + 0.5 - 0.005 ≠
        smapGL2 ((ndcCoords lvp wp).x * 0.5 + 0.5 + (o.1 : ℝ) * texel)
          ((ndcCoords lvp wp).y * 0.5 + 0.5 + (o.2 : ℝ) * texel) := by
    intro o ho
    simpa [remap01] using hNe o ho
  rw [WebGPU.shadowCalc, WebGL2.shadowCalc]
  simp only [remap01]
  split_ifs with h
  · rfl
  · congr 1
    rw [pcf_sum_flip]
    refine congrArg List.sum (List.map_congr_left ?_)
    intro o ho
    dsimp only
    rw [hMap]
    have harg : 1 - (1 - ((ndcCoords lvp wp).y * 0.5 + 0.5) + ((-o.2 : ℤ) : ℝ) * texel)
        = (ndcCoords lvp wp).y * 0.5 + 0.5 + (o.2 : ℝ) * texel := by
      push_cast
      ring
    rw [harg]
    exact indicator_flip _ _ (hNe' o ho)

theorem lightFrag_backend_eq (uLightPos uCameraPos : Vec3) (lvp : Mat4)
    (smapGL2 smapGPU : ℝ → ℝ → ℝ) (gPos gNorm : Vec4) (gAlbedo : Vec3)
    (hOcc : gPos.w ≠ 0) (hEm : ¬ 0.5 < gNorm.w)
    (hMap : ∀ a b, smapGPU a b = smapGL2 a (1 - b))
    (hNe : ∀ o ∈ pcfOffsets,
        (remap01 (ndcCoords lvp ⟨gPos.x, gPos.y, gPos.z⟩)).z - 0.005 ≠
          smapGL2 ((remap01 (ndcCoords lvp ⟨gPos.x, gPos.y, gPos.z⟩)).x + (o.1 : ℝ) * texel)
            ((remap01 (ndcCoords lvp ⟨gPos.x, gPos.y, gPos.z⟩)).y + (o.2 : ℝ) * texel)) :
    WebGL2.lightFrag uLightPos uCameraPos lvp smapGL2 gPos gNorm gAlbedo
      = WebGPU.lightFrag uLightPos uCameraPos lvp smapGPU gPos gNorm gAlbedo := by
  rw [WebGL2.lightFrag, WebGPU.lightFrag, if_neg hOcc, if_neg hOcc, if_neg hEm,
    shadowCalc_backend_eq smapGL2 smapGPU lvp ⟨gPos.x, gPos.y, gPos.z⟩ hMap hNe]

theorem compositeWire_backend_eq (pp : Bool) (scene bloom : Vec3) :
    WebGL2.compositeWire pp scene bloom = WebGPU.compositeWire pp scene bloom := by
  cases pp
  · norm_num [WebGL2.compositeWire, WebGPU.compositeWire,
      WebGL2.compositeFrag, WebGPU.compositeFrag]
  · norm_num [WebGL2.compositeWire, WebGPU.compositeWire,
      WebGL2.compositeFrag, WebGPU.compositeFrag, toneCurve_gpu_eq]

/-! ### Claim theorems -/

/-- C1 counterexample: with identical inputs the two backends' pipelines do
not produce identical pixels — at a pixel with no covering geometry
(G-Buffer position alpha 0) the WebGL2 lighting pass writes the background
(0.08, 0.08, 0.12) while the WebGPU pass writes (0, 0, 0), and with
postProcessing off the composite writes these through to the output. -/
theorem c1_counterexample :
    WebGL2.renderPixel false ⟨1, 2, 3⟩ ⟨4, 5, 6⟩ mat4Id (fun _ _ => 1)
        ⟨0, 0, 0, 0⟩ ⟨0, 0, 1, 1⟩ ⟨1, 0, 0⟩ ⟨0, 0, 0⟩ ≠
    WebGPU.renderPixel false ⟨1, 2, 3⟩ ⟨4, 5, 6⟩ mat4Id (fun _ _ => 1)
        ⟨0, 0, 0, 0⟩ ⟨0, 0, 1, 1⟩ ⟨1, 0, 0⟩ ⟨0, 0, 0⟩ := by
  intro h
  have hx := congrArg Vec3.x h
  norm_num [WebGL2.renderPixel, WebGPU.renderPixel, WebGL2.compositeWire,
    WebGPU.compositeWire, WebGL2.compositeFrag, WebGPU.compositeFrag,
    WebGL2.lightFrag, WebGPU.lightFrag, vadd, vscale] at hx

/-- C1 amended: the two backends' composite passes are extensionally equal
under the shared renderFrame wiring, and their lighting passes agree at
every pixel whose G-Buffer samples agree, whose occupancy flag is set and
emissive flag unset, whose shadow maps correspond under the WebGPU
Y-flip, and at which no PCF sample's stored depth exactly equals the biased
projected depth; whole frames are NOT identical in general (the background
colours differ, and only WebGPU implements the emissive bypass). -/
theorem c1_lighting_composite_agree (pp : Bool) (scene bloom : Vec3)
    (uLightPos uCameraPos : Vec3) (lvp : Mat4) (smapGL2 smapGPU : ℝ → ℝ → ℝ)
    (gPos gNorm : Vec4) (gAlbedo bloomSample : Vec3)
    (hOcc : gPos.w ≠ 0) (hEm : ¬ 0.5 < gNorm.w)
    (hMap : ∀ a b, smapGPU a b = smapGL2 a (1 - b))
    (hNe : ∀ o ∈ pcfOffsets,
        (remap01 (ndcCoords lvp ⟨gPos.x, gPos.y, gPos.z⟩)).z - 0.005 ≠
          smapGL2 ((remap01 (ndcCoords lvp ⟨gPos.x, gPos.y, gPos.z⟩)).x + (o.1 : ℝ) * texel)
            ((remap01 (ndcCoords lvp ⟨gPos.x, gPos.y, gPos.z⟩)).y + (o.2 : ℝ) * texel)) :
    WebGL2.compositeWire pp scene bloom = WebGPU.compositeWire pp scene bloom ∧
    WebGL2.renderPixel pp uLightPos uCameraPos lvp smapGL2 gPos gNorm gAlbedo bloomSample
      = WebGPU.renderPixel pp uLightPos uCameraPos lvp smapGPU gPos gNorm gAlbedo bloomSample := by
  refine ⟨compositeWire_backend_eq pp scene bloom, ?_⟩
  rw [WebGL2.renderPixel, WebGPU.renderPixel,
    lightFrag_backend_eq uLightPos uCameraPos lvp smapGL2 smapGPU gPos gNorm gAlbedo
      hOcc hEm hMap hNe,
    compositeWire_backend_eq]

/-- C1 witness: a lit, non-emissive pixel at the world origin under the
identity light matrix with a constant-depth shadow map renders identically
through both backends' lighting and composite passes. -/
theorem c1_witness :
    WebGL2.renderPixel true ⟨1, 2, 3⟩ ⟨4, 5, 6⟩ mat4Id (fun _ _ => 1)
        ⟨0, 0, 0, 1⟩ ⟨0, 0, 1, 0⟩ ⟨1, 0, 0⟩ ⟨0, 0, 0⟩ =
    WebGPU.renderPixel true ⟨1, 2, 3⟩ ⟨4, 5, 6⟩ mat4Id (fun _ _ => 1)
        ⟨0, 0, 0, 1⟩ ⟨0, 0, 1, 0⟩ ⟨1, 0, 0⟩ ⟨0, 0, 0⟩ :=
  (c1_lighting_composite_agree true ⟨1, 1, 1⟩ ⟨0, 0, 0⟩ ⟨1, 2, 3⟩ ⟨4, 5, 6⟩
    mat4Id (fun _ _ => 1) (fun _ _ => 1) ⟨0, 0, 0, 1⟩ ⟨0, 0, 1, 0⟩ ⟨1, 0, 0⟩ ⟨0, 0, 0⟩
    (by norm_num) (by norm_num) (fun _ _ => rfl)
    (fun o _ => by norm_num [remap01, ndcCoords, mulVec, dot4, mat4Id])).2

/-- C2 counterexample: in the WebGL2 backend an emissive draw call IS
rendered into the shadow depth target — the shadow-pass loop has no
emissive filter — so the claim fails for the WebGL2 half of "in both
backends". -/
theorem c2_counterexample :
    (⟨7, true⟩ : DrawCall) ∈ WebGL2.shadowDrawList [⟨7, true⟩]
        ⟨mat4Id, ⟨0, 0, 0⟩, ⟨0, 0, 0⟩, some mat4Id⟩ ⟨true, true, true⟩ ∧
    (⟨7, true⟩ : DrawCall).emissive = true := by
  constructor
  · rw [WebGL2.shadowDrawList, if_pos ⟨rfl, rfl⟩]
    exact List.mem_singleton.mpr rfl
  · rfl

/-- C2 amended: the emissive contract holds in the WebGPU backend only —
its shadow pass skips every emissive draw call and its lighting pass
outputs albedo * 5.0 for every emissive-flagged covered pixel regardless of
light position — while the WebGL2 backend renders emissive draw calls into
the shadow target like any other geometry (and its lighting pass has no
emissive bypass at all). -/
theorem c2_emissive_gpu_only :
    (∀ dcs u opts dc, dc ∈ WebGPU.shadowDrawList dcs u opts → dc.emissive = false) ∧
    (∀ (uLightPos uCameraPos : Vec3) (lvp : Mat4) (smap : ℝ → ℝ → ℝ)
        (gPos gNorm : Vec4) (gAlbedo : Vec3), 0.5 < gNorm.w → gPos.w ≠ 0 →
      WebGPU.lightFrag uLightPos uCameraPos lvp smap gPos gNorm gAlbedo
        = vscale 5 gAlbedo) ∧
    (∀ dcs u opts, opts.shadows → u.lightViewProj.isSome →
      WebGL2.shadowDrawList dcs u opts = dcs) := by
  refine ⟨?_, ?_, ?_⟩
  · intro dcs u opts dc hmem
    rw [WebGPU.shadowDrawList] at hmem
    split_ifs at hmem with hc
    · simpa using (List.mem_filter.mp hmem).2
    · simp at hmem
  · intro uLightPos uCameraPos lvp smap gPos gNorm gAlbedo hEm hOcc
    rw [WebGPU.lightFrag, if_neg hOcc, if_pos hEm]
  · intro dcs u opts h1 h2
    rw [WebGL2.shadowDrawList, if_pos ⟨h1, h2⟩]

/-- C2 witness: a covered emissive pixel outputs exactly 5 x its albedo in
the WebGPU lighting pass, and the WebGL2 shadow pass draw list retains an
emissive draw call. -/
theorem c2_witness :
    WebGPU.lightFrag ⟨1, 2, 3⟩ ⟨4, 5, 6⟩ mat4Id (fun _ _ => 1)
        ⟨0, 0, 0, 1⟩ ⟨0, 0, 1, 1⟩ ⟨0.5, 0.25, 0.125⟩ = vscale 5 ⟨0.5, 0.25, 0.125⟩ ∧
    WebGL2.shadowDrawList [⟨7, true⟩]
        ⟨mat4Id, ⟨0, 0, 0⟩, ⟨0, 0, 0⟩, some mat4Id⟩ ⟨true, true, true⟩ = [⟨7, true⟩] :=
  ⟨c2_emissive_gpu_only.2.1 ⟨1, 2, 3⟩ ⟨4, 5, 6⟩ mat4Id (fun _ _ => 1)
      ⟨0, 0, 0, 1⟩ ⟨0, 0, 1, 1⟩ ⟨0.5, 0.25, 0.125⟩ (by norm_num) (by norm_num),
   c2_emissive_gpu_only.2.2 [⟨7, true⟩]
      ⟨mat4Id, ⟨0, 0, 0⟩, ⟨0, 0, 0⟩, some mat4Id⟩ ⟨true, true, true⟩ rfl rfl⟩

/-- C3: when shadows are off or no light view-projection is supplied, the
shadow pass renders no geometry in either backend, the shadow target still
holds the cleared fully-lit depth 1.0 everywhere, and sampling such a
constant-1.0 shadow map yields shadow factor 1 (full illumination) at every
position in both lighting shaders, regardless of geometry placement. -/
theorem c3_shadow_skip_fully_lit
    (drawDepth : (ℝ → ℝ → ℝ) → DrawCall → (ℝ → ℝ → ℝ))
    (dcs : List DrawCall) (u : FrameUniforms) (opts : RenderOptions)
    (hskip : ¬ (opts.shadows ∧ u.lightViewProj.isSome)) :
    WebGL2.shadowDrawList dcs u opts = [] ∧
    WebGPU.shadowDrawList dcs u opts = [] ∧
    WebGL2.shadowPassMap drawDepth dcs u opts = (fun _ _ => 1) ∧
    WebGPU.shadowPassMap drawDepth dcs u opts = (fun _ _ => 1) ∧
    (∀ lvp wp, WebGL2.shadowCalc (fun _ _ => 1) lvp wp = 1) ∧
    (∀ lvp wp, WebGPU.shadowCalc (fun _ _ => 1) lvp wp = 1) := by
  refine ⟨if_neg hskip, if_neg hskip, ?_, ?_,
    shadowCalc_const_one_gl2, shadowCalc_const_one_gpu⟩
  · rw [WebGL2.shadowPassMap, WebGL2.shadowDrawList, if_neg hskip]
    rfl
  · rw [WebGPU.shadowPassMap, WebGPU.shadowDrawList, if_neg hskip]
    rfl

/-- C3 witness: with shadows toggled off the shadow target of either backend
is the constant fully-lit map after the pass. -/
theorem c3_witness :
    WebGL2.shadowPassMap (fun m _ => m) [⟨0, false⟩]
        ⟨mat4Id, ⟨0, 0, 0⟩, ⟨0, 0, 0⟩, none⟩ ⟨false, true, true⟩ = (fun _ _ => 1) ∧
    WebGPU.shadowPassMap (fun m _ => m) [⟨0, false⟩]
        ⟨mat4Id, ⟨0, 0, 0⟩, ⟨0, 0, 0⟩, none⟩ ⟨false, true, true⟩ = (fun _ _ => 1) := by
  have h := c3_shadow_skip_fully_lit (fun m _ => m) [⟨0, false⟩]
    ⟨mat4Id, ⟨0, 0, 0⟩, ⟨0, 0, 0⟩, none⟩ ⟨false, true, true⟩ (by simp)
  exact ⟨h.2.2.1, h.2.2.2.1⟩

/-- C6: in both backends the lighting pass's shadow factor is always k/9
for some k between 0 and 9 — the average over the 3x3 texel neighborhood of
a binary comparison of the biased projected depth against the stored
depth — and any position projecting outside the light's frustum or beyond
its far plane receives shadow factor exactly 1. -/
theorem c6_pcf_shadow_factor (smap : ℝ → ℝ → ℝ) (lvp : Mat4) (wp : Vec3) :
    (∃ k : ℕ, k ≤ 9 ∧ WebGL2.shadowCalc smap lvp wp = k / 9) ∧
    (∃ k : ℕ, k ≤ 9 ∧ WebGPU.shadowCalc smap lvp wp = k / 9) ∧
    (((remap01 (ndcCoords lvp wp)).x < 0 ∨ 1 < (remap01 (ndcCoords lvp wp)).x ∨
      (remap01 (ndcCoords lvp wp)).y < 0 ∨ 1 < (remap01 (ndcCoords lvp wp)).y ∨
      1 < (remap01 (ndcCoords lvp wp)).z) →
      WebGL2.shadowCalc smap lvp wp = 1 ∧ WebGPU.shadowCalc smap lvp wp = 1) := by
  refine ⟨?_, ?_, ?_⟩
  · rw [WebGL2.shadowCalc]
    split_ifs with hoob
    · exact ⟨9, le_rfl, by norm_num⟩
    · obtain ⟨k, hk, hs⟩ := sum_binary pcfOffsets
        (fun o => if (remap01 (ndcCoords lvp wp)).z - 0.005 >
            smap ((remap01 (ndcCoords lvp wp)).x + (o.1 : ℝ) * texel)
              ((remap01 (ndcCoords lvp wp)).y + (o.2 : ℝ) * texel)
          then (0 : ℝ) else 1)
        (fun o _ => by dsimp only; split_ifs <;> simp)
      exact ⟨k, by simpa [pcfOffsets] using hk, by rw [hs]⟩
  · rw [WebGPU.shadowCalc]
    split_ifs with hoob
    · exact ⟨9, le_rfl, by norm_num⟩
    · obtain ⟨k, hk, hs⟩ := sum_binary pcfOffsets
        (fun o => if (ndcCoords lvp wp).z * 0.5 + 0.5 - 0.005 <
            smap ((ndcCoords lvp wp).x * 0.5 + 0.5 + (o.1 : ℝ) * texel)
              (1 - ((ndcCoords lvp wp).y * 0.5 + 0.5) + (o.2 : ℝ) * texel)
          then (1 : ℝ) else 0)
        (fun o _ => by dsimp only; split_ifs <;> simp)
      exact ⟨k, by simpa [pcfOffsets] using hk, by rw [hs]⟩
  · intro hoob
    constructor
    · rw [WebGL2.shadowCalc, if_pos hoob]
    · rw [WebGPU.shadowCalc]
      rw [if_pos]
      exact hoob

/-- C6 witness: a position projecting well outside the light frustum (x in
NDC is 5, remapping to 3 > 1) is fully lit in both backends, and its shadow
factor is of the form k/9. -/
theorem c6_witness :
    (WebGL2.shadowCalc (fun _ _ => 0.5) mat4Id ⟨5, 0, 0⟩ = 1 ∧
      WebGPU.shadowCalc (fun _ _ => 0.5) mat4Id ⟨5, 0, 0⟩ = 1) ∧
    ∃ k : ℕ, k ≤ 9 ∧ WebGL2.shadowCalc (fun _ _ => 0.5) mat4Id ⟨5, 0, 0⟩ = k / 9 := by
  have h := c6_pcf_shadow_factor (fun _ _ => 0.5) mat4Id ⟨5, 0, 0⟩
  refine ⟨h.2.2 ?_, h.1⟩
  right
  left
  norm_num [remap01, ndcCoords, mulVec, dot4, mat4Id]

/-- C5: with postProcessing = true the composite applies the ACES
approximation (x*(a*x+b))/(x*(c*x+d)+e) with a=2.51 b=0.03 c=2.43 d=0.59
e=0.14 followed by the 1/2.2 gamma encode: an HDR input of (0,0,0) maps to
(0,0,0), every output component is at most 1 for every input, and the tone
curve tends to 1 as its input grows without bound — in both backends. -/
theorem c5_tonemap_range :
    WebGL2.compositeWire true ⟨0, 0, 0⟩ ⟨0, 0, 0⟩ = ⟨0, 0, 0⟩ ∧
    WebGPU.compositeWire true ⟨0, 0, 0⟩ ⟨0, 0, 0⟩ = ⟨0, 0, 0⟩ ∧
    (∀ scene bloom : Vec3,
      (WebGL2.compositeWire true scene bloom).x ≤ 1 ∧
      (WebGL2.compositeWire true scene bloom).y ≤ 1 ∧
      (WebGL2.compositeWire true scene bloom).z ≤ 1) ∧
    (∀ scene bloom : Vec3,
      (WebGPU.compositeWire true scene bloom).x ≤ 1 ∧
      (WebGPU.compositeWire true scene bloom).y ≤ 1 ∧
      (WebGPU.compositeWire true scene bloom).z ≤ 1) ∧
    Filter.Tendsto WebGL2.toneCurve Filter.atTop (nhds 1) ∧
    Filter.Tendsto WebGPU.toneCurve Filter.atTop (nhds 1) := by
  have hgl : ∀ scene bloom : Vec3, WebGL2.compositeWire true scene bloom =
      vmap WebGL2.toneCurve (vscale 1 (vadd scene (vscale 0.3 bloom))) := by
    intro scene bloom
    rw [WebGL2.compositeWire, WebGL2.compositeFrag]
    simp
  have hgpu : ∀ scene bloom : Vec3, WebGPU.compositeWire true scene bloom =
      vmap WebGPU.toneCurve (vscale 1 (vadd scene (vscale 0.3 bloom))) := by
    intro scene bloom
    rw [WebGPU.compositeWire, WebGPU.compositeFrag]
    norm_num
  refine ⟨?_, ?_, ?_, ?_, toneCurve_tendsto_one,
    toneCurve_gpu_eq ▸ toneCurve_tendsto_one⟩
  · rw [hgl]
    simp only [vadd, vscale, vmap]
    norm_num [toneCurve_zero]
  · rw [hgpu, toneCurve_gpu_eq]
    simp only [vadd, vscale, vmap]
    norm_num [toneCurve_zero]
  · intro scene bloom
    rw [hgl]
    exact ⟨toneCurve_le_one _, toneCurve_le_one _, toneCurve_le_one _⟩
  · intro scene bloom
    rw [hgpu, toneCurve_gpu_eq]
    exact ⟨toneCurve_le_one _, toneCurve_le_one _, toneCurve_le_one _⟩

/-- C4: with postProcessing = false the composite pass writes the raw HDR
scene value through unchanged at every pixel, in both backends: the bloom
sample is still an input but its contribution is gated to zero by
bloomStrength = 0, and no tone curve or gamma encode is applied. -/
theorem c4_post_off_passthrough (scene bloom : Vec3) :
    WebGL2.compositeWire false scene bloom = scene ∧
    WebGPU.compositeWire false scene bloom = scene := by
  constructor
  · simp [WebGL2.compositeWire, WebGL2.compositeFrag, vadd, vscale]
  · norm_num [WebGPU.compositeWire, WebGPU.compositeFrag, vadd, vscale]

/-- C7 counterexample: a resize that detects a zero-area surface allocates
the G-Buffer position target with zero-area dimensions in both backends —
the full-resolution screen targets are NOT clamped to one pixel per axis. -/
theorem c7_counterexample :
    (WebGL2.resize (WebGL2.resize (WebGL2.mkState 3 3) 4 4) 0 0).screen.gPosition
        = (0, 0) ∧
    (WebGPU.resize (WebGPU.resize (WebGPU.mkState 3 3) 4 4) 0 0).screen.gPosition
        = (0, 0) := by
  constructor <;> decide

/-- C7 amended: only the half-resolution bloom ping-pong pair is clamped, at
max(1, D/2) per axis, and is therefore never zero-area; the three G-Buffer
targets, the depth target and the HDR target are allocated at exactly the
detected surface size with no clamping, in both backends. -/
theorem c7_only_bloom_clamped (w h : ℕ) :
    WebGL2.rebuildScreenFBOs w h = WebGPU.rebuildScreenTextures w h ∧
    (WebGL2.rebuildScreenFBOs w h).bloom0 = (max 1 (w / 2), max 1 (h / 2)) ∧
    (WebGL2.rebuildScreenFBOs w h).bloom1 = (max 1 (w / 2), max 1 (h / 2)) ∧
    1 ≤ (WebGL2.rebuildScreenFBOs w h).bloom0.1 ∧
    1 ≤ (WebGL2.rebuildScreenFBOs w h).bloom0.2 ∧
    1 ≤ (WebGL2.rebuildScreenFBOs w h).bloom1.1 ∧
    1 ≤ (WebGL2.rebuildScreenFBOs w h).bloom1.2 ∧
    (WebGL2.rebuildScreenFBOs w h).gPosition = (w, h) ∧
    (WebGL2.rebuildScreenFBOs w h).gNormal = (w, h) ∧
    (WebGL2.rebuildScreenFBOs w h).gAlbedo = (w, h) ∧
    (WebGL2.rebuildScreenFBOs w h).gDepth = (w, h) ∧
    (WebGL2.rebuildScreenFBOs w h).hdr = (w, h) := by
  refine ⟨rfl, rfl, rfl, ?_, ?_, ?_, ?_, rfl, rfl, rfl, rfl, rfl⟩ <;>
    exact le_max_left 1 _

/-- C8: in the WebGPU backend the per-draw-call uniform buffer pools only
grow: one renderFrame call with n draw calls tops each pool up to
max(previous length, n) by appending only, and across any sequence of calls
starting from the empty pools each pool's length is the maximum draw-call
count seen so far. -/
theorem c8_pools_monotone :
    (∀ p n, (WebGPU.renderFramePools p n).shadowUniformBuffers.length
          = max p.shadowUniformBuffers.length n ∧
        (WebGPU.renderFramePools p n).gBufUniformBuffers.length
          = max p.gBufUniformBuffers.length n) ∧
    (∀ p n, (∃ q, (WebGPU.renderFramePools p n).shadowUniformBuffers
          = p.shadowUniformBuffers ++ q) ∧
        ∃ q, (WebGPU.renderFramePools p n).gBufUniformBuffers
          = p.gBufUniformBuffers ++ q) ∧
    ∀ counts : List ℕ,
      (counts.foldl WebGPU.renderFramePools WebGPU.emptyPools).shadowUniformBuffers.length
          = counts.foldl max 0 ∧
      (counts.foldl WebGPU.renderFramePools WebGPU.emptyPools).gBufUniformBuffers.length
          = counts.foldl max 0 := by
  refine ⟨fun p n => ⟨growPool_length _ _, growPool_length _ _⟩,
          fun p n => ⟨growPool_extends _ _, growPool_extends _ _⟩, fun counts => ?_⟩
  rw [foldl_renderFramePools]
  exact ⟨foldl_growPool_length counts [], foldl_growPool_length counts []⟩

/-- C9: the shadow depth target is allocated at construction at the fixed
SHADOW_SIZE x SHADOW_SIZE, independent of the surface, and resize() — even
when it rebuilds every screen-sized resource — leaves it untouched, in both
backends. -/
theorem c9_shadow_target_fixed :
    (∀ w h, (WebGL2.mkState w h).shadowSize = (SHADOW_SIZE, SHADOW_SIZE)) ∧
    (∀ s w h, (WebGL2.resize s w h).shadowSize = s.shadowSize) ∧
    (∀ w h, (WebGPU.mkState w h).shadowSize = (SHADOW_SIZE, SHADOW_SIZE)) ∧
    (∀ s w h, (WebGPU.resize s w h).shadowSize = s.shadowSize) ∧
    (∀ s w h, (s.gBufWidth ≠ w ∨ s.gBufHeight ≠ h) →
        (WebGL2.resize s w h).screen = WebGL2.rebuildScreenFBOs w h) ∧
    (∀ s w h, (s.screenWidth ≠ w ∨ s.screenHeight ≠ h) →
        (WebGPU.resize s w h).screen = WebGPU.rebuildScreenTextures w h) := by
  refine ⟨fun w h => rfl, ?_, fun w h => rfl, ?_, ?_, ?_⟩
  · intro s w h
    by_cases h1 : s.canvasW ≠ w ∨ s.canvasH ≠ h <;>
      by_cases h2 : s.gBufWidth ≠ w ∨ s.gBufHeight ≠ h <;>
        simp [WebGL2.resize, h1, h2]
  · intro s w h
    by_cases h1 : s.canvasW ≠ w ∨ s.canvasH ≠ h <;>
      by_cases h2 : s.screenWidth ≠ w ∨ s.screenHeight ≠ h <;>
        simp [WebGPU.resize, h1, h2]
  · intro s w h h2
    by_cases h1 : s.canvasW ≠ w ∨ s.canvasH ≠ h <;>
      simp [WebGL2.resize, h1, h2]
  · intro s w h h2
    by_cases h1 : s.canvasW ≠ w ∨ s.canvasH ≠ h <;>
      simp [WebGPU.resize, h1, h2]

/-- C9 witness: a resize to a different surface size rebuilds the screen
resources at the new size while the shadow target's dimensions survive. -/
theorem c9_witness :
    (WebGL2.resize (WebGL2.mkState 3 3) 5 5).screen = WebGL2.rebuildScreenFBOs 5 5 ∧
    (WebGL2.resize (WebGL2.mkState 3 3) 5 5).shadowSize = (WebGL2.mkState 3 3).shadowSize ∧
    (WebGPU.resize (WebGPU.mkState 3 3) 5 5).screen = WebGPU.rebuildScreenTextures 5 5 ∧
    (WebGPU.resize (WebGPU.mkState 3 3) 5 5).shadowSize = (WebGPU.mkState 3 3).shadowSize :=
  ⟨c9_shadow_target_fixed.2.2.2.2.1 (WebGL2.mkState 3 3) 5 5 (by decide),
   c9_shadow_target_fixed.2.1 (WebGL2.mkState 3 3) 5 5,
   c9_shadow_target_fixed.2.2.2.2.2 (WebGPU.mkState 3 3) 5 5 (by decide),
   c9_shadow_target_fixed.2.2.2.1 (WebGPU.mkState 3 3) 5 5⟩

/-- C10: in both backends createMesh returns vertexCount =
data.length / floatsPerVertex with no rounding or validation, so the two
backends agree exactly and a data length that is not a multiple of the
per-vertex float count yields a non-integer vertexCount. -/
theorem c10_vertex_count :
    (∀ n layout, WebGL2.createMeshVertexCount n layout
        = WebGPU.createMeshVertexCount n layout) ∧
    (∀ n layout, WebGL2.createMeshVertexCount n layout
        = (n : ℚ) / (floatsPerVertex layout : ℚ)) ∧
    ∀ n layout, floatsPerVertex layout ≠ 0 → ¬ floatsPerVertex layout ∣ n →
      ¬ ∃ z : ℤ, WebGL2.createMeshVertexCount n layout = (z : ℚ) := by
  refine ⟨fun n layout => rfl, fun n layout => rfl, ?_⟩
  rintro n layout hfp hdvd ⟨z, hz⟩
  rw [WebGL2.createMeshVertexCount,
    div_eq_iff (by exact_mod_cast hfp : ((floatsPerVertex layout : ℚ) ≠ 0))] at hz
  have hz2 : (n : ℤ) = z * (floatsPerVertex layout : ℤ) := by exact_mod_cast hz
  have hdd : (floatsPerVertex layout : ℤ) ∣ (n : ℤ) := ⟨z, by rw [hz2]; ring⟩
  exact hdvd (by exact_mod_cast hdd)

/-- C10 witness: the standard 11-float vertex layout (position 3, uv 2,
normal 3, tangent 3) with a 5-element data array gives the non-integer
vertexCount 5/11. -/
theorem c10_witness :
    ¬ ∃ z : ℤ, WebGL2.createMeshVertexCount 5 [⟨0, 3⟩, ⟨1, 2⟩, ⟨2, 3⟩, ⟨3, 3⟩]
        = (z : ℚ) :=
  c10_vertex_count.2.2 5 [⟨0, 3⟩, ⟨1, 2⟩, ⟨2, 3⟩, ⟨3, 3⟩] (by decide) (by decide)

end Graphics
